import Mathlib

/-!
Shallow embedding of the survey-app core (mengleangyoeun/survey-app).

The embedded code:
* the survey-taking page `src/app/survey/[slug]/page.tsx`
  (answer buffer, `validateCurrentQuestion`, `nextQuestion`, `previousQuestion`,
  `submitSurvey`, `renderQuestion` answer handlers, and the render-level
  navigation guards);
* the results page (`src/unnamed/part_000`, second document):
  `generateAnalytics` (per-question tally) and `exportToCSV`;
* the zod validation schemas in `src/lib/validations.ts`
  (`surveySchema`, `questionSchema`, `surveyWithQuestionsSchema`);
* `generateSlug` from `src/app/admin/dashboard/create/page.tsx`.

JavaScript strings are modelled as Lean `String`, nullable columns as
`Option String`, the answer buffer object as an insertion-ordered
association list, and `JSON.stringify` / `JSON.parse` (applied in this app
only to strings and arrays of strings) by an executable encoder/parser for
that JSON fragment.
-/

/-- Question types (`question_type` enum in `src/lib/validations.ts` and
`src/lib/database.types.ts`). -/
inductive QuestionType
  | short_answer
  | long_answer
  | multiple_choice
  | likert_scale
  | file_upload
deriving DecidableEq

/-- A question row as used by the survey-taking page and the results page
(`database.types` `questions` Row; columns not read by the embedded code —
`survey_id`, `options`, `order_index`, timestamps — are omitted). -/
structure Question where
  id : String
  question_text : String
  question_type : QuestionType
  required : Bool
deriving DecidableEq

/-- Runtime values stored in the survey page's answer buffer
(`answers : Record<string, any>`).  Every handler in `renderQuestion`
(lines 158-232) stores a string (`vstr`); `varr` models array values, the
`typeof answer === 'object'` branch of `submitSurvey` (line 138).  `null` is
never written into the buffer by any code path and is not modelled. -/
inductive AnswerValue
  | vstr (s : String)
  | varr (l : List String)
deriving DecidableEq

/-- The answer buffer `answers : Record<string, any>`: a JS object used as a
map from question id to value, modelled as an insertion-ordered association
list with unique keys maintained by `setAnswer`. -/
abbrev AnswerBuffer := List (String × AnswerValue)

/-- Property lookup `answers[questionId]` (missing key ↦ `undefined`,
modelled as `none`). -/
def lookupAnswer : AnswerBuffer → String → Option AnswerValue
  | [], _ => none
  | (k, v) :: rest, q => if k = q then some v else lookupAnswer rest q

/-- The `handleAnswerChange` update `{...prev, [questionId]: value}`
(lines 74-79): overwrite in place if the key exists, else append. -/
def setAnswer : AnswerBuffer → String → AnswerValue → AnswerBuffer
  | [], q, v => [(q, v)]
  | (k, w) :: rest, q, v =>
    if k = q then (k, v) :: rest else (k, w) :: setAnswer rest q v

/-- Deleting a key from the buffer.  Not an operation of the page; used only
to state the empty-vs-absent equivalence (claim C6). -/
def removeAnswer (b : AnswerBuffer) (q : String) : AnswerBuffer :=
  b.filter (fun e => !(e.1 == q))

/-- The "no answer" test shared by `validateCurrentQuestion` (line 87) and
`submitSurvey` (line 109):
`answer === undefined || answer === '' || answer === null`.
(`null` never occurs in the buffer, see `AnswerValue`.) -/
def isUnanswered (b : AnswerBuffer) (qid : String) : Bool :=
  match lookupAnswer b qid with
  | none => true
  | some (AnswerValue.vstr s) => s == ""
  | some (AnswerValue.varr _) => false

/-- Array indexing `survey.questions[currentQuestionIndex]` where the index
is a JS number (modelled as `Int`); out-of-range access gives `undefined`. -/
def currentQuestion (qs : List Question) (i : Int) : Option Question :=
  if i < 0 then none else qs[i.toNat]?

/-- Lines 81-88.  If the current question is not required the check passes;
otherwise it requires a present, non-empty buffer entry.  (On an
out-of-range index the JS code would throw reading `.required` of
`undefined`; the model returns `false`; all theorems use in-range
indices.) -/
def validateCurrentQuestion (qs : List Question) (b : AnswerBuffer) (i : Int) : Bool :=
  match currentQuestion qs i with
  | none => false
  | some q => if q.required then !(isUnanswered b q.id) else true

/-- The navigation state of the survey-taking page: `currentQuestionIndex`
(a JS number, so `Int`) and the `error` banner. -/
structure TakerState where
  currentQuestionIndex : Int
  error : Option String
deriving DecidableEq

/-- The `nextQuestion` handler (lines 90-97): on a failed validation set the
error and leave the index unchanged, otherwise clear the error and
increment. -/
def nextQuestion (qs : List Question) (b : AnswerBuffer) (s : TakerState) : TakerState :=
  if validateCurrentQuestion qs b s.currentQuestionIndex then
    { currentQuestionIndex := s.currentQuestionIndex + 1, error := none }
  else
    { s with error := some "Please answer this required question before continuing" }

/-- The `previousQuestion` handler (lines 99-102): clear the error and
decrement. -/
def previousQuestion (s : TakerState) : TakerState :=
  { currentQuestionIndex := s.currentQuestionIndex - 1, error := none }

/-- Line 275: `currentQuestionIndex === survey.questions.length - 1`. -/
def isLastQuestion (qs : List Question) (s : TakerState) : Bool :=
  s.currentQuestionIndex == (qs.length : Int) - 1

/-- Advance as the user can trigger it: the Next button is rendered only
when `!isLastQuestion` (line 333; on the last question it is replaced by
the Submit button), so on the last question advancing is a no-op. -/
def clickNext (qs : List Question) (b : AnswerBuffer) (s : TakerState) : TakerState :=
  if isLastQuestion qs s then s else nextQuestion qs b s

/-- Retreat as the user can trigger it: the Previous button carries
`disabled={currentQuestionIndex === 0}` (line 327), so at index 0 it is a
no-op. -/
def clickPrevious (s : TakerState) : TakerState :=
  if s.currentQuestionIndex = 0 then s else previousQuestion s

/-- A user navigation action. -/
inductive NavOp
  | next
  | prev
deriving DecidableEq

/-- One user navigation action applied to the state. -/
def navStep (qs : List Question) (b : AnswerBuffer) (s : TakerState) : NavOp → TakerState
  | NavOp.next => clickNext qs b s
  | NavOp.prev => clickPrevious s

/-- A sequence of user navigation actions. -/
def runNav (qs : List Question) (b : AnswerBuffer) (ops : List NavOp) (s : TakerState) : TakerState :=
  ops.foldl (navStep qs b) s

/-! JSON fragment used by the app: `JSON.stringify` is applied only to
strings and arrays of strings (`submitSurvey` line 138, question `options`),
and `JSON.parse` only to text produced that way.  The encoder escapes `"`
and `\` (other escapes — control characters, `\uXXXX` — never occur in the
text this app writes and are not modelled). -/

/-- A JSON value of the fragment this app stores in `answer_choice`. -/
inductive Json
  | jstr (s : String)
  | jarr (l : List String)
deriving DecidableEq

/-- Escaping of one character inside a JSON string literal. -/
def jsonEscapeChar (c : Char) : List Char :=
  if c = '"' ∨ c = '\\' then ['\\', c] else [c]

/-- `JSON.stringify` of a string. -/
def jsonEncodeStr (s : String) : String :=
  "\"" ++ String.mk (s.data.flatMap jsonEscapeChar) ++ "\""

/-- The items-and-closing-bracket part of `JSON.stringify` of an array. -/
def jsonEncodeItems : List String → String
  | [] => "]"
  | [x] => jsonEncodeStr x ++ "]"
  | x :: y :: xs => jsonEncodeStr x ++ "," ++ jsonEncodeItems (y :: xs)

/-- `JSON.stringify` of an array of strings. -/
def jsonEncodeArr (l : List String) : String :=
  "[" ++ jsonEncodeItems l

/-- Parse the body of a JSON string literal (after the opening quote);
returns the decoded characters and the input remaining after the closing
quote. -/
def parseStrBody : List Char → Option (List Char × List Char)
  | [] => none
  | c :: rest =>
    if c = '"' then some ([], rest)
    else if c = '\\' then
      match rest with
      | [] => none
      | e :: rest2 =>
        match parseStrBody rest2 with
        | none => none
        | some (content, r) => some (e :: content, r)
    else
      match parseStrBody rest with
      | none => none
      | some (content, r) => some (c :: content, r)

/-- Parse the items of a JSON array (after the opening bracket), fuelled by
an upper bound on the number of items. -/
def parseItemsAux : Nat → List Char → Option (List String × List Char)
  | 0, _ => none
  | _ + 1, [] => none
  | fuel + 1, c :: rest =>
    if c = ']' then some ([], rest)
    else if c = '"' then
      match parseStrBody rest with
      | none => none
      | some (content, r2) =>
        match r2 with
        | [] => none
        | d :: r3 =>
          if d = ']' then some ([String.mk content], r3)
          else if d = ',' then
            match parseItemsAux fuel r3 with
            | none => none
            | some (items, r4) => some (String.mk content :: items, r4)
          else none
    else none

/-- `JSON.parse` on the fragment this app stores (a string or an array of
strings); `none` models a thrown `SyntaxError`. -/
def jsonParse (s : String) : Option Json :=
  match s.data with
  | [] => none
  | c :: rest =>
    if c = '[' then
      match parseItemsAux (rest.length + 1) rest with
      | some (items, []) => some (Json.jarr items)
      | _ => none
    else if c = '"' then
      match parseStrBody rest with
      | some (content, []) => some (Json.jstr (String.mk content))
      | _ => none
    else none

/-- `Array.prototype.join(sep)` for a list of strings. -/
def jsJoin (sep : String) : List String → String
  | [] => ""
  | [x] => x
  | x :: y :: xs => x ++ sep ++ jsJoin sep (y :: xs)

/-! The submit path (`submitSurvey`, lines 104-153). -/

/-- An `answers` table row as built at line 134-139 (`file_url` is never
set by this page and is omitted). -/
structure AnswerRow where
  response_id : String
  question_id : String
  answer_text : Option String
  answer_choice : Option String
deriving DecidableEq

/-- Lines 137-138: the two-column encoding is dispatched on the JS runtime
type of the buffered value —
`answer_text: typeof answer === 'string' ? answer : null`,
`answer_choice: typeof answer === 'object' ? JSON.stringify(answer) : null`. -/
def encodeAnswerRow (rid qid : String) (v : AnswerValue) : AnswerRow :=
  { response_id := rid
    question_id := qid
    answer_text := match v with
      | AnswerValue.vstr s => some s
      | AnswerValue.varr _ => none
    answer_choice := match v with
      | AnswerValue.vstr _ => none
      | AnswerValue.varr l => some (jsonEncodeArr l) }

/-- A `responses` table row as inserted at lines 122-127. -/
structure ResponseRow where
  survey_id : String
  participant_id : Option String
deriving DecidableEq

/-- Outcome of `submitSurvey`: either the validation error (lines 112-115,
nothing persisted) or the persisted response row and answer rows. -/
inductive SubmitResult
  | validationError (message : String)
  | submitted (resp : ResponseRow) (answerRows : List AnswerRow)
deriving DecidableEq

/-- Lines 104-145 of `submitSurvey`: recompute the required check over all
questions; on failure report every missing question's text and persist
nothing; on success insert one response row (its generated id is the
`respId` parameter) and one answer row per buffer entry
(`Object.entries(answers).map`). -/
def submitSurvey (surveyId respId : String) (qs : List Question) (b : AnswerBuffer) :
    SubmitResult :=
  let missingRequired := qs.filter (fun q => q.required && isUnanswered b q.id)
  if 0 < missingRequired.length then
    SubmitResult.validationError
      ("Please answer all required questions: " ++
        jsJoin ", " (missingRequired.map (fun q => q.question_text)))
  else
    SubmitResult.submitted { survey_id := surveyId, participant_id := none }
      (b.map (fun e => encodeAnswerRow respId e.1 e.2))

/-- The value `renderQuestion` records into the buffer for each question
type (lines 158-232): text inputs, both radio groups (`multiple_choice`,
`likert_scale`) and the file input (`file.name`) all store a string. -/
def recordedValue : QuestionType → String → AnswerValue
  | QuestionType.short_answer, s => AnswerValue.vstr s
  | QuestionType.long_answer, s => AnswerValue.vstr s
  | QuestionType.multiple_choice, s => AnswerValue.vstr s
  | QuestionType.likert_scale, s => AnswerValue.vstr s
  | QuestionType.file_upload, s => AnswerValue.vstr s

/-! The results page (`src/unnamed/part_000`): decoding, analytics,
CSV export. -/

/-- JS truthiness of a nullable string column (`null`, `undefined` and `''`
are falsy). -/
def truthyStr : Option String → Bool
  | none => false
  | some s => !(s == "")

/-- The per-cell decode in `exportToCSV` (lines 390-397): `answer_text`
verbatim if truthy, else `JSON.parse(answer_choice)` — an array joined with
`', '`, a string taken as is — else `''`.  (On malformed JSON the real code
would throw; the model returns `""`; this app only stores
`JSON.stringify` output.) -/
def csvAnswerValue (answer_text answer_choice : Option String) : String :=
  if truthyStr answer_text then answer_text.getD ""
  else if truthyStr answer_choice then
    match jsonParse (answer_choice.getD "") with
    | some (Json.jarr l) => jsJoin ", " l
    | some (Json.jstr s) => s
    | none => ""
  else ""

/-- The decode in `generateAnalytics` (lines 349-350): prefer
`answer_choice` (parsed; first element if an array), else `answer_text`.
(Malformed JSON modelled as `none`, see `csvAnswerValue`.) -/
def analyticsKey (answer_text answer_choice : Option String) : Option String :=
  if truthyStr answer_choice then
    match jsonParse (answer_choice.getD "") with
    | some (Json.jarr l) => l.head?
    | some (Json.jstr s) => some s
    | none => none
  else answer_text

/-- Incrementing `answerCounts[key]` for one answer
(`answerCounts[key] = (answerCounts[key] || 0) + 1`, line 351).  The JS
object is modelled as an insertion-ordered association list; `none` keys
model the `null`/`undefined` keys JS would coerce (never produced for rows
this app writes). -/
def bumpCount : List (Option String × Nat) → Option String → List (Option String × Nat)
  | [], k => [(k, 1)]
  | (k1, n) :: rest, k => if k1 = k then (k1, n + 1) :: rest else (k1, n) :: bumpCount rest k

/-- The tally loop of `generateAnalytics` (lines 347-352) over a question's
answers. -/
def answerCounts (answers : List AnswerRow) : List (Option String × Nat) :=
  answers.foldl (fun m a => bumpCount m (analyticsKey a.answer_text a.answer_choice)) []

/-- Count recorded for one key in the tally (0 when absent). -/
def countKey (m : List (Option String × Nat)) (k : Option String) : Nat :=
  match m.find? (fun e => e.1 == k) with
  | some e => e.2
  | none => 0

/-- Line 346: only `multiple_choice` and `likert_scale` questions are
charted. -/
def isChoiceLike : QuestionType → Bool
  | QuestionType.multiple_choice => true
  | QuestionType.likert_scale => true
  | _ => false

/-- A stored response joined with its answers, as fetched by the results
page. -/
structure StoredResponse where
  id : String
  submitted_at : String
  answers : List AnswerRow
deriving DecidableEq

/-- Lines 340-342: the answers belonging to one question, across all
responses. -/
def questionAnswers (responses : List StoredResponse) (q : Question) : List AnswerRow :=
  responses.flatMap (fun r => r.answers.filter (fun a => a.question_id == q.id))

/-- The `chartData` tally of `generateAnalytics` (lines 344-359) keyed by
full answer; the 20-character display truncation of the `answer` label
(line 355) is presentation-only and omitted — `fullAnswer` keeps the full
key in the source too. -/
def chartCounts (q : Question) (responses : List StoredResponse) :
    List (Option String × Nat) :=
  if isChoiceLike q.question_type then answerCounts (questionAnswers responses q) else []

/-! CSV export (`exportToCSV`, lines 379-418). -/

/-- Line 387-399: the cell for one question of one response (`''` when the
response has no answer row for the question). -/
def csvCellForQuestion (r : StoredResponse) (q : Question) : String :=
  match r.answers.find? (fun a => a.question_id == q.id) with
  | none => ""
  | some a => csvAnswerValue a.answer_text a.answer_choice

/-- Line 406: `"${cell.toString().replace(/"/g, '""')}"`. -/
def escapeCell (cell : String) : String :=
  "\"" ++ String.mk (cell.data.flatMap (fun c => if c = '"' then ['"', '"'] else [c])) ++ "\""

/-- Line 382: `['Response ID', 'Submitted At', ...questions.map(q => q.question_text)]`. -/
def csvHeaders (qs : List Question) : List String :=
  "Response ID" :: "Submitted At" :: qs.map (fun q => q.question_text)

/-- Lines 383-403: one data row.  `fmt` models the date-fns
`format(new Date(...), 'yyyy-MM-dd HH:mm:ss')` call (an external library). -/
def csvRow (fmt : String → String) (qs : List Question) (r : StoredResponse) : List String :=
  r.id :: fmt r.submitted_at :: qs.map (csvCellForQuestion r)

/-- Lines 405-407: quote-escape every cell, join cells with `','` and rows
with `'\n'`.  (The enclosing handler returns early when there are no
responses, line 380; the content built for a non-empty response list is
modelled.) -/
def exportToCSV (fmt : String → String) (qs : List Question)
    (responses : List StoredResponse) : String :=
  jsJoin "\n"
    ((csvHeaders qs :: responses.map (csvRow fmt qs)).map
      (fun row => jsJoin "," (row.map escapeCell)))

/-! Validation schemas (`src/lib/validations.ts`). -/

/-- Survey status enum. -/
inductive SurveyStatus
  | draft
  | active
  | closed
deriving DecidableEq

/-- A character allowed by the `surveySchema` slug rule `/^[a-z0-9-]+$/`. -/
def isSlugChar (c : Char) : Bool :=
  (decide ('a' ≤ c) && decide (c ≤ 'z')) ||
  (decide ('0' ≤ c) && decide (c ≤ '9')) || c == '-'

/-- The slug rule of `surveySchema`:
`z.string().min(1).regex(/^[a-z0-9-]+$/)`. -/
def slugAccepted (s : String) : Bool :=
  decide (1 ≤ s.length) && s.data.all isSlugChar

/-- The `questionSchema` input shape (`order_index` is a JS number). -/
structure QuestionForm where
  question_text : String
  question_type : QuestionType
  options : Option (List String)
  required : Bool
  order_index : Int
deriving DecidableEq

/-- `questionSchema` (lines 354-369): `question_text` min 1,
`order_index` min 0, and the refinement — for `multiple_choice`,
`data.options && data.options.length >= 2`; any other type passes. -/
def questionSchemaAccepts (q : QuestionForm) : Bool :=
  decide (1 ≤ q.question_text.length) && decide (0 ≤ q.order_index) &&
    (if q.question_type = QuestionType.multiple_choice then
      match q.options with
      | some opts => decide (2 ≤ opts.length)
      | none => false
    else true)

/-- The `surveyWithQuestionsSchema` input shape (optional
`start_date`/`end_date` are unused by the create page and omitted). -/
structure SurveyForm where
  title : String
  description : Option String
  slug : String
  status : SurveyStatus
  questions : List QuestionForm
deriving DecidableEq

/-- `surveySchema` (lines 344-351): `title` min 1 max 200, slug rule;
`description` optional, `status` constrained by its enum type. -/
def surveySchemaAccepts (s : SurveyForm) : Bool :=
  decide (1 ≤ s.title.length) && decide (s.title.length ≤ 200) && slugAccepted s.slug

/-- `surveyWithQuestionsSchema` (lines 372-374): the survey fields plus
`questions: z.array(questionSchema).min(1)`. -/
def surveyWithQuestionsAccepts (s : SurveyForm) : Bool :=
  surveySchemaAccepts s && decide (1 ≤ s.questions.length) &&
    s.questions.all questionSchemaAccepts

/-! Slug generation (`generateSlug`, create page lines 110-117). -/

/-- The character class of the JS regex `\s` (ECMAScript WhiteSpace and
LineTerminator). -/
def isJsWhitespace (c : Char) : Bool :=
  let n := c.toNat
  n == 32 || n == 9 || n == 10 || n == 11 || n == 12 || n == 13 ||
  n == 160 || n == 0x1680 || (decide (0x2000 ≤ n) && decide (n ≤ 0x200a)) ||
  n == 0x2028 || n == 0x2029 || n == 0x202f || n == 0x205f || n == 0x3000 ||
  n == 0xfeff

/-- Global replacement of every maximal run of characters satisfying `p` by
the single character `r` (models `replace(/X+/g, 'r')`); `inRun` records
whether the previous character was part of a run. -/
def replaceRuns (p : Char → Bool) (r : Char) : List Char → Bool → List Char
  | [], _ => []
  | c :: rest, inRun =>
    if p c then
      (if inRun then replaceRuns p r rest true else r :: replaceRuns p r rest true)
    else c :: replaceRuns p r rest false

/-- `String.prototype.trim()`: strip leading and trailing JS whitespace. -/
def jsTrim (l : List Char) : List Char :=
  ((l.dropWhile isJsWhitespace).reverse.dropWhile isJsWhitespace).reverse

/-- The character class kept by `replace(/[^a-z0-9\s-]/g, '')`. -/
def keepSlugChar (c : Char) : Bool :=
  (decide ('a' ≤ c) && decide (c ≤ 'z')) ||
  (decide ('0' ≤ c) && decide (c ≤ '9')) || isJsWhitespace c || c == '-'

/-- Lines 110-117: lowercase, drop characters outside `[a-z0-9\s-]`,
replace whitespace runs with `-`, collapse `-` runs, trim.
(`toLowerCase` is modelled by `Char.toLower`, exact on ASCII; the
subsequent filter keeps only `[a-z0-9\s-]` so the claims below do not
depend on lowercasing of exotic characters.) -/
def generateSlug (title : String) : String :=
  let lowered := title.data.map Char.toLower
  let kept := lowered.filter keepSlugChar
  let dashed := replaceRuns isJsWhitespace '-' kept false
  let collapsed := replaceRuns (fun c => c == '-') '-' dashed false
  String.mk (jsTrim collapsed)


/-! Helper lemmas about the answer buffer. -/

theorem lookup_setAnswer_self (b : AnswerBuffer) (k : String) (v : AnswerValue) :
    lookupAnswer (setAnswer b k v) k = some v := by
  induction b with
  | nil => simp [setAnswer, lookupAnswer]
  | cons e rest ih =>
    obtain ⟨k1, w⟩ := e
    by_cases h : k1 = k
    · simp [setAnswer, h, lookupAnswer]
    · simp [setAnswer, h, lookupAnswer, ih]

theorem lookup_setAnswer_ne (b : AnswerBuffer) (k x : String) (v : AnswerValue)
    (h : x ≠ k) : lookupAnswer (setAnswer b k v) x = lookupAnswer b x := by
  induction b with
  | nil => simp [setAnswer, lookupAnswer, Ne.symm h]
  | cons e rest ih =>
    obtain ⟨k1, w⟩ := e
    by_cases h1 : k1 = k
    · subst h1
      simp [setAnswer, lookupAnswer, Ne.symm h]
    · simp [setAnswer, h1, lookupAnswer, ih]

theorem removeAnswer_cons (k1 : String) (w : AnswerValue) (rest : AnswerBuffer)
    (k : String) :
    removeAnswer ((k1, w) :: rest) k =
      if k1 = k then removeAnswer rest k else (k1, w) :: removeAnswer rest k := by
  by_cases h : k1 = k <;> simp [removeAnswer, h]

theorem lookup_removeAnswer_self (b : AnswerBuffer) (k : String) :
    lookupAnswer (removeAnswer b k) k = none := by
  induction b with
  | nil => rfl
  | cons e rest ih =>
    obtain ⟨k1, w⟩ := e
    rw [removeAnswer_cons]
    by_cases h1 : k1 = k
    · rw [if_pos h1]; exact ih
    · rw [if_neg h1]
      simp only [lookupAnswer, if_neg h1]
      exact ih

theorem lookup_removeAnswer_ne (b : AnswerBuffer) (k x : String) (h : x ≠ k) :
    lookupAnswer (removeAnswer b k) x = lookupAnswer b x := by
  induction b with
  | nil => rfl
  | cons e rest ih =>
    obtain ⟨k1, w⟩ := e
    rw [removeAnswer_cons]
    by_cases h1 : k1 = k
    · rw [if_pos h1, ih]
      subst h1
      have hx : ¬ k1 = x := fun hh => h hh.symm
      simp [lookupAnswer, hx]
    · rw [if_neg h1]
      simp only [lookupAnswer]
      rw [ih]

theorem isUnanswered_set_empty_eq_remove (b : AnswerBuffer) (k x : String) :
    isUnanswered (setAnswer b k (AnswerValue.vstr "")) x =
      isUnanswered (removeAnswer b k) x := by
  by_cases h : x = k
  · subst h
    simp [isUnanswered, lookup_setAnswer_self, lookup_removeAnswer_self]
  · simp [isUnanswered, lookup_setAnswer_ne b k x _ h, lookup_removeAnswer_ne b k x h]

/-! Helper lemmas about user-triggerable navigation. -/

theorem navStep_index_bounds (qs : List Question) (b : AnswerBuffer) (s : TakerState)
    (op : NavOp) (h0 : 0 ≤ s.currentQuestionIndex)
    (h1 : s.currentQuestionIndex < (qs.length : Int)) :
    0 ≤ (navStep qs b s op).currentQuestionIndex ∧
      (navStep qs b s op).currentQuestionIndex < (qs.length : Int) := by
  cases op with
  | next =>
    simp only [navStep, clickNext]
    by_cases hlast : isLastQuestion qs s = true
    · rw [if_pos hlast]; exact ⟨h0, h1⟩
    · rw [if_neg hlast]
      simp only [isLastQuestion, beq_iff_eq] at hlast
      simp only [nextQuestion]
      by_cases hv : validateCurrentQuestion qs b s.currentQuestionIndex = true
      · rw [if_pos hv]
        dsimp only
        constructor <;> omega
      · rw [if_neg hv]
        exact ⟨h0, h1⟩
  | prev =>
    simp only [navStep, clickPrevious]
    by_cases hz : s.currentQuestionIndex = 0
    · rw [if_pos hz]; exact ⟨h0, h1⟩
    · rw [if_neg hz]
      dsimp only [previousQuestion]
      constructor <;> omega

theorem runNav_index_bounds (qs : List Question) (b : AnswerBuffer) (ops : List NavOp) :
    ∀ s : TakerState, 0 ≤ s.currentQuestionIndex →
      s.currentQuestionIndex < (qs.length : Int) →
      0 ≤ (runNav qs b ops s).currentQuestionIndex ∧
        (runNav qs b ops s).currentQuestionIndex < (qs.length : Int) := by
  induction ops with
  | nil => intro s h0 h1; exact ⟨h0, h1⟩
  | cons op rest ih =>
    intro s h0 h1
    have hstep := navStep_index_bounds qs b s op h0 h1
    simpa [runNav, List.foldl_cons] using ih (navStep qs b s op) hstep.1 hstep.2

/-- C3: for every survey with at least one question (a survey passes the
validation schema only with ≥1 question) and every sequence of
user-triggerable advance/retreat actions starting at index 0, the index
stays within `[0, N)`; advancing on the last question is a no-op (the Next
button is replaced by Submit) and retreating at index 0 is a no-op (the
Previous button is disabled). -/
theorem current_index_stays_in_bounds (qs : List Question) (b : AnswerBuffer)
    (ops : List NavOp) (hN : 1 ≤ qs.length) :
    (0 ≤ (runNav qs b ops ⟨0, none⟩).currentQuestionIndex ∧
      (runNav qs b ops ⟨0, none⟩).currentQuestionIndex < (qs.length : Int)) ∧
    (∀ s : TakerState, isLastQuestion qs s = true → clickNext qs b s = s) ∧
    (∀ s : TakerState, s.currentQuestionIndex = 0 → clickPrevious s = s) := by
  refine ⟨?_, ?_, ?_⟩
  · refine runNav_index_bounds qs b ops ⟨0, none⟩ (by simp) ?_
    show (0 : Int) < (qs.length : Int)
    exact_mod_cast hN
  · intro s hlast
    simp [clickNext, hlast]
  · intro s hz
    simp [clickPrevious, hz]

/-- Witness for `current_index_stays_in_bounds` at a concrete one-question
survey and action sequence, including both no-op boundary cases. -/
theorem current_index_stays_in_bounds_witness :
    (0 ≤ (runNav [⟨"q1", "Name?", QuestionType.short_answer, true⟩] []
        [NavOp.prev, NavOp.next, NavOp.next] ⟨0, none⟩).currentQuestionIndex ∧
      (runNav [⟨"q1", "Name?", QuestionType.short_answer, true⟩] []
        [NavOp.prev, NavOp.next, NavOp.next] ⟨0, none⟩).currentQuestionIndex < 1) ∧
    clickNext [⟨"q1", "Name?", QuestionType.short_answer, true⟩] [] ⟨0, none⟩ =
      ⟨0, none⟩ ∧
    clickPrevious ⟨0, none⟩ = ⟨0, none⟩ :=
  ⟨(current_index_stays_in_bounds [⟨"q1", "Name?", QuestionType.short_answer, true⟩] []
      [NavOp.prev, NavOp.next, NavOp.next] (by decide)).1,
   (current_index_stays_in_bounds [⟨"q1", "Name?", QuestionType.short_answer, true⟩] []
      [NavOp.prev, NavOp.next, NavOp.next] (by decide)).2.1 ⟨0, none⟩ (by decide),
   (current_index_stays_in_bounds [⟨"q1", "Name?", QuestionType.short_answer, true⟩] []
      [NavOp.prev, NavOp.next, NavOp.next] (by decide)).2.2 ⟨0, none⟩ rfl⟩

/-- C4: advancing on a required, unanswered current question sets the
validation error and leaves the index unchanged; advancing on an answered
or optional current question clears the error and increments the index. -/
theorem advance_validation_gate (qs : List Question) (b : AnswerBuffer) (s : TakerState)
    (q : Question) (hq : currentQuestion qs s.currentQuestionIndex = some q) :
    (q.required = true → isUnanswered b q.id = true →
      nextQuestion qs b s =
        { s with error := some "Please answer this required question before continuing" }) ∧
    (q.required = false ∨ isUnanswered b q.id = false →
      nextQuestion qs b s =
        { currentQuestionIndex := s.currentQuestionIndex + 1, error := none }) := by
  constructor
  · intro hreq hun
    have hv : validateCurrentQuestion qs b s.currentQuestionIndex = false := by
      simp [validateCurrentQuestion, hq, hreq, hun]
    simp [nextQuestion, hv]
  · intro hok
    have hv : validateCurrentQuestion qs b s.currentQuestionIndex = true := by
      rcases hok with hopt | hans
      · simp [validateCurrentQuestion, hq, hopt]
      · simp [validateCurrentQuestion, hq, hans]
    simp [nextQuestion, hv]

/-- Witness for `advance_validation_gate`: a required unanswered question
blocks with the error, and after answering it the index advances. -/
theorem advance_validation_gate_witness :
    nextQuestion [⟨"q1", "Name?", QuestionType.short_answer, true⟩] [] ⟨0, none⟩ =
      ⟨0, some "Please answer this required question before continuing"⟩ ∧
    nextQuestion [⟨"q1", "Name?", QuestionType.short_answer, true⟩]
        [("q1", AnswerValue.vstr "Ann")] ⟨0, none⟩ = ⟨1, none⟩ :=
  ⟨(advance_validation_gate [⟨"q1", "Name?", QuestionType.short_answer, true⟩] [] ⟨0, none⟩
      ⟨"q1", "Name?", QuestionType.short_answer, true⟩ (by decide)).1 (by decide) (by decide),
   (advance_validation_gate [⟨"q1", "Name?", QuestionType.short_answer, true⟩]
      [("q1", AnswerValue.vstr "Ann")] ⟨0, none⟩
      ⟨"q1", "Name?", QuestionType.short_answer, true⟩ (by decide)).2 (Or.inr (by decide))⟩

/-- C6: for the required-field checks of both `advance` and `submit`, a
buffer entry holding the empty string behaves exactly like an absent
entry: validation over `setAnswer b q ""` equals validation over the buffer
with `q`'s entry removed, at every index and over all questions. -/
theorem empty_string_equals_absent (qs : List Question) (b : AnswerBuffer) (qid : String)
    (i : Int) :
    validateCurrentQuestion qs (setAnswer b qid (AnswerValue.vstr "")) i =
      validateCurrentQuestion qs (removeAnswer b qid) i ∧
    qs.filter (fun q => q.required && isUnanswered (setAnswer b qid (AnswerValue.vstr "")) q.id) =
      qs.filter (fun q => q.required && isUnanswered (removeAnswer b qid) q.id) := by
  constructor
  · simp only [validateCurrentQuestion, isUnanswered_set_empty_eq_remove]
  · apply List.filter_congr
    intro q _
    rw [isUnanswered_set_empty_eq_remove]

/-! Helper lemmas for the JSON fragment: the parser inverts the encoder. -/

theorem parseStrBody_cons (c : Char) (l : List Char) :
    parseStrBody (c :: l) =
      if c = '"' then some ([], l)
      else if c = '\\' then
        match l with
        | [] => none
        | e :: rest2 =>
          match parseStrBody rest2 with
          | none => none
          | some (content, r) => some (e :: content, r)
      else
        match parseStrBody l with
        | none => none
        | some (content, r) => some (c :: content, r) := by
  rw [parseStrBody.eq_def]

theorem parseStrBody_escaped (cs rest : List Char) :
    parseStrBody (cs.flatMap jsonEscapeChar ++ '"' :: rest) = some (cs, rest) := by
  induction cs with
  | nil =>
    rw [List.flatMap_nil, List.nil_append, parseStrBody_cons, if_pos rfl]
  | cons c cs ih =>
    by_cases hc : c = '"' ∨ c = '\\'
    · have hesc : jsonEscapeChar c = ['\\', c] := by simp [jsonEscapeChar, hc]
      rw [List.flatMap_cons, hesc]
      simp only [List.cons_append, List.nil_append, List.append_assoc]
      rw [parseStrBody_cons, if_neg (by decide : ¬('\\' = '"')), if_pos rfl]
      simp only [ih]
    · have hesc : jsonEscapeChar c = [c] := by simp [jsonEscapeChar, hc]
      push_neg at hc
      rw [List.flatMap_cons, hesc]
      simp only [List.cons_append, List.nil_append]
      rw [parseStrBody_cons, if_neg hc.1, if_neg hc.2]
      simp only [ih]

theorem parseItemsAux_succ (n : Nat) (c : Char) (rest : List Char) :
    parseItemsAux (n + 1) (c :: rest) =
      if c = ']' then some ([], rest)
      else if c = '"' then
        match parseStrBody rest with
        | none => none
        | some (content, r2) =>
          match r2 with
          | [] => none
          | d :: r3 =>
            if d = ']' then some ([String.mk content], r3)
            else if d = ',' then
              match parseItemsAux n r3 with
              | none => none
              | some (items, r4) => some (String.mk content :: items, r4)
            else none
      else none := by
  rfl

theorem jsonEncodeStr_data (x : String) :
    (jsonEncodeStr x).data = '"' :: (x.data.flatMap jsonEscapeChar ++ ['"']) := by
  simp [jsonEncodeStr, String.data_append]

theorem parseItemsAux_encoded (l : List String) :
    ∀ fuel : Nat, l.length < fuel →
      parseItemsAux fuel (jsonEncodeItems l).data = some (l, []) := by
  induction l with
  | nil =>
    intro fuel hf
    cases fuel with
    | zero => omega
    | succ n =>
      show parseItemsAux (n + 1) (("]" : String).data) = some ([], [])
      rw [show ("]" : String).data = [']'] from rfl, parseItemsAux_succ, if_pos rfl]
  | cons x xs ih =>
    intro fuel hf
    cases fuel with
    | zero => omega
    | succ n =>
      cases xs with
      | nil =>
        have hdata : (jsonEncodeItems [x]).data =
            '"' :: (x.data.flatMap jsonEscapeChar ++ '"' :: [']']) := by
          simp [jsonEncodeItems, String.data_append, jsonEncodeStr_data]
        rw [hdata, parseItemsAux_succ, if_neg (by decide : ¬('"' = ']')), if_pos rfl,
          parseStrBody_escaped]
        rfl
      | cons y ys =>
        have hdata : (jsonEncodeItems (x :: y :: ys)).data =
            '"' :: (x.data.flatMap jsonEscapeChar ++
              '"' :: ',' :: (jsonEncodeItems (y :: ys)).data) := by
          simp [jsonEncodeItems, String.data_append, jsonEncodeStr_data]
        have hrec : parseItemsAux n (jsonEncodeItems (y :: ys)).data =
            some (y :: ys, []) := by
          apply ih
          simp only [List.length_cons] at hf ⊢
          omega
        rw [hdata, parseItemsAux_succ, if_neg (by decide : ¬('"' = ']')), if_pos rfl,
          parseStrBody_escaped]
        simp only [if_neg (by decide : ¬(',' = ']')), if_pos rfl, hrec]
        rfl

theorem jsonEncodeItems_data_length (l : List String) :
    l.length ≤ (jsonEncodeItems l).data.length := by
  induction l with
  | nil => simp [jsonEncodeItems]
  | cons x xs ih =>
    cases xs with
    | nil =>
      simp [jsonEncodeItems, String.data_append]
    | cons y ys =>
      have : (jsonEncodeItems (x :: y :: ys)).data.length =
          (jsonEncodeStr x).data.length + 1 + (jsonEncodeItems (y :: ys)).data.length := by
        simp [jsonEncodeItems, String.data_append]
        omega
      simp only [List.length_cons] at ih ⊢
      omega

/-- The JSON round trip used throughout: parsing the encoded array recovers
the array. -/
theorem jsonParse_encodeArr (l : List String) :
    jsonParse (jsonEncodeArr l) = some (Json.jarr l) := by
  have hdata : (jsonEncodeArr l).data = '[' :: (jsonEncodeItems l).data := by
    simp [jsonEncodeArr, String.data_append]
  unfold jsonParse
  rw [hdata]
  simp only [if_pos rfl]
  rw [parseItemsAux_encoded l ((jsonEncodeItems l).data.length + 1)
    (by have := jsonEncodeItems_data_length l; omega)]
  rfl

/-- An encoded array is never the empty string (it starts with `[`). -/
theorem jsonEncodeArr_ne_empty (l : List String) : (jsonEncodeArr l == "") = false := by
  have hdata : (jsonEncodeArr l).data = '[' :: (jsonEncodeItems l).data := by
    simp [jsonEncodeArr, String.data_append]
  rw [beq_eq_false_iff_ne]
  intro h
  have h2 : (jsonEncodeArr l).data = [] := by rw [h]
  rw [hdata] at h2
  exact List.cons_ne_nil _ _ h2

/-! Decode lemmas for rows produced by the submit-time encoding. -/

theorem csvAnswerValue_encode_vstr (rid qid s : String) :
    csvAnswerValue (encodeAnswerRow rid qid (AnswerValue.vstr s)).answer_text
      (encodeAnswerRow rid qid (AnswerValue.vstr s)).answer_choice = s := by
  by_cases hs : s = ""
  · simp [encodeAnswerRow, csvAnswerValue, truthyStr, hs]
  · simp [encodeAnswerRow, csvAnswerValue, truthyStr, hs]

theorem csvAnswerValue_encode_varr (rid qid : String) (l : List String) :
    csvAnswerValue (encodeAnswerRow rid qid (AnswerValue.varr l)).answer_text
      (encodeAnswerRow rid qid (AnswerValue.varr l)).answer_choice = jsJoin ", " l := by
  simp [encodeAnswerRow, csvAnswerValue, truthyStr, jsonEncodeArr_ne_empty,
    jsonParse_encodeArr]

theorem analyticsKey_encode_vstr (rid qid s : String) :
    analyticsKey (encodeAnswerRow rid qid (AnswerValue.vstr s)).answer_text
      (encodeAnswerRow rid qid (AnswerValue.vstr s)).answer_choice = some s := by
  simp [encodeAnswerRow, analyticsKey, truthyStr]

theorem analyticsKey_encode_varr (rid qid : String) (l : List String) :
    analyticsKey (encodeAnswerRow rid qid (AnswerValue.varr l)).answer_text
      (encodeAnswerRow rid qid (AnswerValue.varr l)).answer_choice = l.head? := by
  simp [encodeAnswerRow, analyticsKey, truthyStr, jsonEncodeArr_ne_empty,
    jsonParse_encodeArr]

/-- The two-column encoding the spec claims for C1: free-text types store
`answer_text`, choice/scale types store JSON in `answer_choice`.  (Stated
from the spec's words, to be compared against `encodeAnswerRow`.) -/
def specTypeBasedEncoding (qt : QuestionType) (row : AnswerRow) : Prop :=
  match qt with
  | QuestionType.short_answer => row.answer_choice = none ∧ row.answer_text ≠ none
  | QuestionType.long_answer => row.answer_choice = none ∧ row.answer_text ≠ none
  | QuestionType.file_upload => row.answer_choice = none ∧ row.answer_text ≠ none
  | QuestionType.multiple_choice => row.answer_text = none ∧ row.answer_choice ≠ none
  | QuestionType.likert_scale => row.answer_text = none ∧ row.answer_choice ≠ none

/-- C1 counterexample: a `likert_scale` answer is recorded by its RadioGroup
handler as a string (`recordedValue`), so `submitSurvey` stores it in
`answer_text` with `answer_choice` null — not JSON-serialized into
`answer_choice` as the claim states. -/
theorem encoding_not_type_based :
    ¬ specTypeBasedEncoding QuestionType.likert_scale
        (encodeAnswerRow "r1" "q1" (recordedValue QuestionType.likert_scale "Agree")) ∧
    (encodeAnswerRow "r1" "q1" (recordedValue QuestionType.likert_scale "Agree")).answer_text
        = some "Agree" ∧
    (encodeAnswerRow "r1" "q1" (recordedValue QuestionType.likert_scale "Agree")).answer_choice
        = none := by
  refine ⟨?_, rfl, rfl⟩
  intro h
  exact absurd h.1 (by decide)

/-- C1 amended: the encoding at submit time follows the JS runtime type of
the buffered value, not the question's type — strings go to `answer_text`
(`answer_choice` null), arrays are JSON-serialized into `answer_choice`
(`answer_text` null), so exactly one of the two columns is populated; and
since every question type's UI handler records a string (including both
radio groups), every row produced from a recorded answer has `answer_text`
populated and `answer_choice` null. -/
theorem encoding_follows_value_type (rid qid : String) (v : AnswerValue)
    (qt : QuestionType) (s : String) :
    ((encodeAnswerRow rid qid v).answer_text = none ↔
      (encodeAnswerRow rid qid v).answer_choice ≠ none) ∧
    (encodeAnswerRow rid qid (recordedValue qt s)).answer_text = some s ∧
    (encodeAnswerRow rid qid (recordedValue qt s)).answer_choice = none := by
  refine ⟨?_, ?_, ?_⟩
  · cases v <;> simp [encodeAnswerRow]
  · cases qt <;> rfl
  · cases qt <;> rfl

/-- C2: the codec round-trips.  A buffered string decodes back to itself
through the CSV decode (`answer_text` verbatim when non-empty; the empty
string falls through to the `''` default); an encoded array parses back to
exactly the same array; a single-element array displays as its scalar; and
the analytics decode of a multi-element array takes the first element. -/
theorem answer_codec_round_trip (rid qid : String) :
    (∀ s : String,
      csvAnswerValue (encodeAnswerRow rid qid (AnswerValue.vstr s)).answer_text
        (encodeAnswerRow rid qid (AnswerValue.vstr s)).answer_choice = s) ∧
    (∀ l : List String, jsonParse (jsonEncodeArr l) = some (Json.jarr l)) ∧
    (∀ x : String,
      csvAnswerValue (encodeAnswerRow rid qid (AnswerValue.varr [x])).answer_text
        (encodeAnswerRow rid qid (AnswerValue.varr [x])).answer_choice = x) ∧
    (∀ l : List String,
      analyticsKey (encodeAnswerRow rid qid (AnswerValue.varr l)).answer_text
        (encodeAnswerRow rid qid (AnswerValue.varr l)).answer_choice = l.head?) := by
  refine ⟨csvAnswerValue_encode_vstr rid qid, jsonParse_encodeArr, ?_,
    analyticsKey_encode_varr rid qid⟩
  intro x
  rw [csvAnswerValue_encode_varr]
  rfl

/-! The error message of `submitSurvey` names every missing question. -/

theorem mem_jsJoin_sub (l : List String) (x : String) (hx : x ∈ l) :
    ∃ s u, (jsJoin ", " l).data = s ++ x.data ++ u := by
  induction l with
  | nil => cases hx
  | cons a as ih =>
    cases as with
    | nil =>
      rw [List.mem_singleton.mp hx]
      exact ⟨[], [], by simp [jsJoin]⟩
    | cons b bs =>
      rcases List.mem_cons.mp hx with h | h
      · subst h
        refine ⟨[], (", " : String).data ++ (jsJoin ", " (b :: bs)).data, ?_⟩
        simp [jsJoin, String.data_append]
      · obtain ⟨s, u, hsu⟩ := ih h
        refine ⟨a.data ++ (", " : String).data ++ s, u, ?_⟩
        simp [jsJoin, String.data_append, hsu]

/-- C5: `submitSurvey` recomputes the required-question check over all
questions.  When some required question is unanswered it returns the
validation error whose message contains every such question's text as a
substring, and persists nothing (no `submitted` result); when all required
questions are answered it produces one response row and exactly one answer
row per buffer entry. -/
theorem submit_required_gate (surveyId respId : String) (qs : List Question)
    (b : AnswerBuffer) :
    (qs.filter (fun q => q.required && isUnanswered b q.id) ≠ [] →
      ∃ msg, submitSurvey surveyId respId qs b = SubmitResult.validationError msg ∧
        ∀ q ∈ qs.filter (fun q => q.required && isUnanswered b q.id),
          ∃ s u, msg.data = s ++ q.question_text.data ++ u) ∧
    (qs.filter (fun q => q.required && isUnanswered b q.id) = [] →
      submitSurvey surveyId respId qs b =
        SubmitResult.submitted { survey_id := surveyId, participant_id := none }
          (b.map (fun e => encodeAnswerRow respId e.1 e.2)) ∧
      (b.map (fun e => encodeAnswerRow respId e.1 e.2)).length = b.length) := by
  constructor
  · intro hm
    have hlen : 0 < (qs.filter (fun q => q.required && isUnanswered b q.id)).length :=
      List.length_pos.mpr hm
    refine ⟨"Please answer all required questions: " ++
      jsJoin ", " ((qs.filter (fun q => q.required && isUnanswered b q.id)).map
        (fun q => q.question_text)), ?_, ?_⟩
    · simp only [submitSurvey]
      rw [if_pos hlen]
    · intro q hq
      obtain ⟨s, u, hsu⟩ := mem_jsJoin_sub
        ((qs.filter (fun q => q.required && isUnanswered b q.id)).map
          (fun q => q.question_text)) q.question_text
        (List.mem_map_of_mem _ hq)
      refine ⟨("Please answer all required questions: " : String).data ++ s, u, ?_⟩
      simp [String.data_append, hsu]
  · intro hm
    have hlen : ¬ 0 < (qs.filter (fun q => q.required && isUnanswered b q.id)).length := by
      simp [hm]
    constructor
    · simp only [submitSurvey]
      rw [if_neg hlen]
    · exact List.length_map b _

/-- Witness for `submit_required_gate` on a concrete three-question survey:
with the third (required) question unanswered submission fails and the
message names it; with it answered submission produces one response row and
one answer row per buffer entry. -/
theorem submit_required_gate_witness :
    (∃ msg, submitSurvey "s1" "r1"
        [⟨"q1", "Q1?", QuestionType.short_answer, true⟩,
         ⟨"q2", "Q2?", QuestionType.short_answer, false⟩,
         ⟨"q3", "Q3?", QuestionType.short_answer, true⟩]
        [("q1", AnswerValue.vstr "ok")] = SubmitResult.validationError msg ∧
      ∀ q ∈ ([⟨"q1", "Q1?", QuestionType.short_answer, true⟩,
              ⟨"q2", "Q2?", QuestionType.short_answer, false⟩,
              ⟨"q3", "Q3?", QuestionType.short_answer, true⟩] : List Question).filter
          (fun q => q.required && isUnanswered [("q1", AnswerValue.vstr "ok")] q.id),
        ∃ s u, msg.data = s ++ q.question_text.data ++ u) ∧
    (submitSurvey "s1" "r1"
        [⟨"q1", "Q1?", QuestionType.short_answer, true⟩,
         ⟨"q2", "Q2?", QuestionType.short_answer, false⟩,
         ⟨"q3", "Q3?", QuestionType.short_answer, true⟩]
        [("q1", AnswerValue.vstr "ok"), ("q3", AnswerValue.vstr "fine")] =
      SubmitResult.submitted { survey_id := "s1", participant_id := none }
        ([("q1", AnswerValue.vstr "ok"), ("q3", AnswerValue.vstr "fine")].map
          (fun e => encodeAnswerRow "r1" e.1 e.2)) ∧
      (([("q1", AnswerValue.vstr "ok"), ("q3", AnswerValue.vstr "fine")] : AnswerBuffer).map
        (fun e => encodeAnswerRow "r1" e.1 e.2)).length = 2) :=
  ⟨(submit_required_gate "s1" "r1" _ _).1 (by decide),
   (submit_required_gate "s1" "r1" _ _).2 (by decide)⟩

/-! Helper lemmas for the analytics tally. -/

theorem countKey_cons (a : Option String) (n : Nat) (rest : List (Option String × Nat))
    (k : Option String) :
    countKey ((a, n) :: rest) k = if a = k then n else countKey rest k := by
  simp only [countKey]
  by_cases h : a = k
  · rw [List.find?_cons_of_pos _ (by simp [h]), if_pos h]
  · rw [List.find?_cons_of_neg _ (by simp [h]), if_neg h]

theorem countKey_bumpCount (m : List (Option String × Nat)) (k1 k : Option String) :
    countKey (bumpCount m k1) k = countKey m k + (if k1 = k then 1 else 0) := by
  induction m with
  | nil =>
    by_cases h : k1 = k <;> simp [bumpCount, countKey_cons, countKey, h]
  | cons e rest ih =>
    obtain ⟨a, n⟩ := e
    by_cases ha : a = k1
    · subst ha
      by_cases hk : a = k
      · simp [bumpCount, countKey_cons, hk]
      · simp [bumpCount, countKey_cons, hk]
    · by_cases hk : a = k
      · subst hk
        have hne : ¬(k1 = a) := fun h => ha h.symm
        simp [bumpCount, ha, countKey_cons, hne]
      · simp [bumpCount, ha, countKey_cons, hk, ih]

theorem countKey_foldl_bump (rows : List AnswerRow) :
    ∀ (m : List (Option String × Nat)) (k : Option String),
      countKey (rows.foldl
        (fun m a => bumpCount m (analyticsKey a.answer_text a.answer_choice)) m) k =
      countKey m k +
        (rows.filter (fun a => analyticsKey a.answer_text a.answer_choice == k)).length := by
  induction rows with
  | nil => simp
  | cons a rest ih =>
    intro m k
    rw [List.foldl_cons, ih, countKey_bumpCount]
    by_cases h : analyticsKey a.answer_text a.answer_choice = k
    · simp [List.filter_cons, h]
      omega
    · simp [List.filter_cons, h]

/-- The tally key `generateAnalytics` obtains for a row written by
`submitSurvey`: a buffered string is keyed by itself, a buffered array by
its first element. -/
def decodedTallyKey : AnswerValue → Option String
  | AnswerValue.vstr s => some s
  | AnswerValue.varr l => l.head?

theorem analyticsKey_encode (rid qid : String) (v : AnswerValue) :
    analyticsKey (encodeAnswerRow rid qid v).answer_text
      (encodeAnswerRow rid qid v).answer_choice = decodedTallyKey v := by
  cases v with
  | vstr s => exact analyticsKey_encode_vstr rid qid s
  | varr l => exact analyticsKey_encode_varr rid qid l

/-- C8: the analytics distribution tallies, for each key, the number of the
question's answers that decode to that key (first element when the decoded
value is an array); a concrete `multiple_choice` question whose three
answers decode to A, A, B yields the distribution `{A: 2, B: 1}` through the
full pipeline; free-text question types produce no chart data, while both
choice-like types chart the tally of their decoded answers. -/
theorem analytics_distribution (rid qid : String) :
    (∀ (vs : List AnswerValue) (k : Option String),
      countKey (answerCounts (vs.map (encodeAnswerRow rid qid))) k =
        (vs.filter (fun v => decodedTallyKey v == k)).length) ∧
    (chartCounts ⟨"qm", "Fav?", QuestionType.multiple_choice, false⟩
        [⟨"r1", "d1", [encodeAnswerRow "r1" "qm" (AnswerValue.vstr "A")]⟩,
         ⟨"r2", "d2", [encodeAnswerRow "r2" "qm" (AnswerValue.vstr "A")]⟩,
         ⟨"r3", "d3", [encodeAnswerRow "r3" "qm" (AnswerValue.vstr "B")]⟩] =
      [(some "A", 2), (some "B", 1)]) ∧
    (∀ (responses : List StoredResponse) (qid2 text : String) (req : Bool),
      chartCounts ⟨qid2, text, QuestionType.short_answer, req⟩ responses = [] ∧
      chartCounts ⟨qid2, text, QuestionType.long_answer, req⟩ responses = [] ∧
      chartCounts ⟨qid2, text, QuestionType.file_upload, req⟩ responses = []) ∧
    (∀ (responses : List StoredResponse) (qid2 text : String) (req : Bool),
      chartCounts ⟨qid2, text, QuestionType.multiple_choice, req⟩ responses =
        answerCounts (questionAnswers responses
          ⟨qid2, text, QuestionType.multiple_choice, req⟩) ∧
      chartCounts ⟨qid2, text, QuestionType.likert_scale, req⟩ responses =
        answerCounts (questionAnswers responses
          ⟨qid2, text, QuestionType.likert_scale, req⟩)) := by
  refine ⟨?_, by decide, ?_, ?_⟩
  · intro vs k
    have h := countKey_foldl_bump (vs.map (encodeAnswerRow rid qid)) [] k
    rw [answerCounts, h]
    simp only [countKey, List.find?_nil, List.filter_map, List.length_map, Nat.zero_add]
    congr 1
    apply List.filter_congr
    intro v _
    simp [Function.comp, analyticsKey_encode]
  · intro responses qid2 text req
    refine ⟨rfl, rfl, rfl⟩
  · intro responses qid2 text req
    exact ⟨rfl, rfl⟩

/-- C7 counterexample: the header row is not the question texts — the code
prepends `'Response ID'` and `'Submitted At'` columns (and each data row
likewise starts with the response id and timestamp). -/
theorem csv_header_not_question_texts :
    csvHeaders [⟨"qa", "A?", QuestionType.short_answer, false⟩,
                ⟨"qb", "B?", QuestionType.short_answer, false⟩] ≠
      ([⟨"qa", "A?", QuestionType.short_answer, false⟩,
        ⟨"qb", "B?", QuestionType.short_answer, false⟩] : List Question).map
        (fun q => q.question_text) ∧
    csvHeaders [⟨"qa", "A?", QuestionType.short_answer, false⟩,
                ⟨"qb", "B?", QuestionType.short_answer, false⟩] =
      ["Response ID", "Submitted At", "A?", "B?"] := by
  exact ⟨by decide, rfl⟩

/-! Helper lemmas for counting CSV lines. -/

theorem escapeCell_no_newline (cell : String) (h : '\n' ∉ cell.data) :
    '\n' ∉ (escapeCell cell).data := by
  intro hmem
  simp only [escapeCell, String.data_append, List.mem_append] at hmem
  rcases hmem with (h1 | h2) | h3
  · simp at h1
  · obtain ⟨c, hc, hin⟩ := List.mem_flatMap.mp h2
    by_cases hq : c = '"'
    · simp [hq] at hin
    · simp [hq] at hin
      exact h (hin ▸ hc)
  · simp at h3

theorem jsJoin_no_newline (sep : String) (hsep : '\n' ∉ sep.data) (l : List String)
    (h : ∀ x ∈ l, '\n' ∉ x.data) : '\n' ∉ (jsJoin sep l).data := by
  induction l with
  | nil => simp [jsJoin]
  | cons a as ih =>
    cases as with
    | nil => exact h a (List.mem_cons_self a [])
    | cons b bs =>
      intro hmem
      have hrw : jsJoin sep (a :: b :: bs) = a ++ sep ++ jsJoin sep (b :: bs) := rfl
      rw [hrw] at hmem
      simp only [String.data_append] at hmem
      rcases List.mem_append.mp hmem with h1 | h2
      · rcases List.mem_append.mp h1 with h3 | h4
        · exact h a (List.mem_cons_self a _) h3
        · exact hsep h4
      · exact ih (fun x hx => h x (List.mem_cons_of_mem a hx)) h2

theorem jsJoin_newline_count (lines : List String) (hne : lines ≠ [])
    (h : ∀ x ∈ lines, '\n' ∉ x.data) :
    (jsJoin "\n" lines).data.count '\n' = lines.length - 1 := by
  induction lines with
  | nil => exact absurd rfl hne
  | cons a as ih =>
    cases as with
    | nil =>
      simp only [jsJoin]
      rw [List.count_eq_zero.mpr (h a (List.mem_cons_self a []))]
      simp
    | cons b bs =>
      have hrw : jsJoin "\n" (a :: b :: bs) = a ++ "\n" ++ jsJoin "\n" (b :: bs) := rfl
      rw [hrw]
      simp only [String.data_append, List.count_append]
      rw [List.count_eq_zero.mpr (h a (List.mem_cons_self a _)),
        ih (List.cons_ne_nil b bs) (fun x hx => h x (List.mem_cons_of_mem a hx))]
      simp [List.length_cons]
      omega

/-- C7 amended: the export is the escaped header line — `'Response ID'`,
`'Submitted At'`, then the question texts — followed by one escaped line per
response, in response order, whose cells are the response id, the formatted
timestamp, then one decoded cell per question in survey order (so 2 + N
cells per row); when no cell contains a newline the export has exactly one
more line than there are responses (3 lines for 2 responses); multi-valued
decoded answers are joined with `', '`; and every cell is
double-quote-wrapped with embedded quotes doubled, e.g. a cell
`He said "hi"` renders as `"He said ""hi"""`. -/
theorem csv_export_shape (fmt : String → String) (qs : List Question)
    (rs : List StoredResponse)
    (hnl : ∀ row ∈ csvHeaders qs :: rs.map (csvRow fmt qs), ∀ cell ∈ row,
      '\n' ∉ cell.data) :
    (exportToCSV fmt qs rs).data.count '\n' = rs.length ∧
    exportToCSV fmt qs rs =
      jsJoin "\n" (jsJoin "," ((csvHeaders qs).map escapeCell) ::
        rs.map (fun r => jsJoin "," ((csvRow fmt qs r).map escapeCell))) ∧
    (csvHeaders qs).length = 2 + qs.length ∧
    (∀ r : StoredResponse, (csvRow fmt qs r).length = 2 + qs.length) ∧
    (∀ l : List String, csvAnswerValue none (some (jsonEncodeArr l)) = jsJoin ", " l) ∧
    escapeCell "He said \"hi\"" = "\"He said \"\"hi\"\"\"" := by
  refine ⟨?_, ?_, ?_, ?_, ?_, by decide⟩
  · rw [exportToCSV, jsJoin_newline_count]
    · simp
    · simp
    · intro x hx
      obtain ⟨row, hrow, hx2⟩ := List.mem_map.mp hx
      subst hx2
      apply jsJoin_no_newline
      · decide
      · intro cell hcell
        obtain ⟨cell0, hcell0, hcell2⟩ := List.mem_map.mp hcell
        subst hcell2
        exact escapeCell_no_newline cell0 (hnl row hrow cell0 hcell0)
  · rw [exportToCSV, List.map_cons, List.map_map]
    rfl
  · simp [csvHeaders]
    omega
  · intro r
    simp [csvRow]
    omega
  · intro l
    simp [csvAnswerValue, truthyStr, jsonEncodeArr_ne_empty, jsonParse_encodeArr]

/-- Witness for `csv_export_shape`: exporting 2 responses over 2 questions
yields exactly 3 lines (2 newline characters), and the full export text is
the quoted header line followed by the two quoted response lines. -/
theorem csv_export_shape_witness :
    (exportToCSV (fun t => t)
      [⟨"qa", "A?", QuestionType.short_answer, false⟩,
       ⟨"qb", "B?", QuestionType.short_answer, false⟩]
      [⟨"r1", "d1", [encodeAnswerRow "r1" "qa" (AnswerValue.vstr "x"),
                     encodeAnswerRow "r1" "qb" (AnswerValue.vstr "y")]⟩,
       ⟨"r2", "d2", [encodeAnswerRow "r2" "qa" (AnswerValue.vstr "z"),
                     encodeAnswerRow "r2" "qb" (AnswerValue.vstr "w")]⟩]).data.count '\n' = 2 ∧
    exportToCSV (fun t => t)
      [⟨"qa", "A?", QuestionType.short_answer, false⟩,
       ⟨"qb", "B?", QuestionType.short_answer, false⟩]
      [⟨"r1", "d1", [encodeAnswerRow "r1" "qa" (AnswerValue.vstr "x"),
                     encodeAnswerRow "r1" "qb" (AnswerValue.vstr "y")]⟩,
       ⟨"r2", "d2", [encodeAnswerRow "r2" "qa" (AnswerValue.vstr "z"),
                     encodeAnswerRow "r2" "qb" (AnswerValue.vstr "w")]⟩] =
      "\"Response ID\",\"Submitted At\",\"A?\",\"B?\"\n\"r1\",\"d1\",\"x\",\"y\"\n\"r2\",\"d2\",\"z\",\"w\"" :=
  ⟨(csv_export_shape (fun t => t)
      [⟨"qa", "A?", QuestionType.short_answer, false⟩,
       ⟨"qb", "B?", QuestionType.short_answer, false⟩]
      [⟨"r1", "d1", [encodeAnswerRow "r1" "qa" (AnswerValue.vstr "x"),
                     encodeAnswerRow "r1" "qb" (AnswerValue.vstr "y")]⟩,
       ⟨"r2", "d2", [encodeAnswerRow "r2" "qa" (AnswerValue.vstr "z"),
                     encodeAnswerRow "r2" "qb" (AnswerValue.vstr "w")]⟩]
      (by decide)).1,
   by decide⟩

/-- C9 counterexample: the schema only counts `options` entries and never
checks them for non-emptiness — a `multiple_choice` question whose two
options are both the empty string (fewer than 2 non-empty entries) is
accepted. -/
theorem options_emptiness_unchecked :
    questionSchemaAccepts
        ⟨"Pick one", QuestionType.multiple_choice, some ["", ""], false, 0⟩ = true ∧
    ((["", ""] : List String).filter (fun o => !(o == ""))).length < 2 := by
  decide

/-- C9 amended: for a `multiple_choice` question the schema accepts exactly
when the question text is non-empty, `order_index` is non-negative and
`options` is present with at least 2 entries (entries may be empty — the
create UI filters empty options before validation, the schema does not);
for every other question type the `options` field does not affect
acceptance; a survey with zero questions is rejected; and a
`multiple_choice` question with 2 options is accepted. -/
theorem question_schema_options_rule :
    (∀ q : QuestionForm, q.question_type = QuestionType.multiple_choice →
      (questionSchemaAccepts q = true ↔
        (1 ≤ q.question_text.length ∧ 0 ≤ q.order_index ∧
          ∃ opts, q.options = some opts ∧ 2 ≤ opts.length))) ∧
    (∀ (q : QuestionForm) (o : Option (List String)),
      q.question_type ≠ QuestionType.multiple_choice →
      questionSchemaAccepts { q with options := o } = questionSchemaAccepts q) ∧
    (∀ s : SurveyForm, s.questions = [] → surveyWithQuestionsAccepts s = false) ∧
    questionSchemaAccepts
      ⟨"Pick one", QuestionType.multiple_choice, some ["Red", "Blue"], false, 0⟩ = true := by
  refine ⟨?_, ?_, ?_, by decide⟩
  · intro q hmc
    obtain ⟨t, qt, o, r, i⟩ := q
    simp only at hmc
    subst hmc
    cases o with
    | none => simp [questionSchemaAccepts]
    | some opts =>
      simp only [questionSchemaAccepts, if_pos rfl, if_true, Bool.and_eq_true,
        decide_eq_true_eq, Option.some.injEq]
      constructor
      · rintro ⟨⟨h1, h2⟩, h3⟩
        exact ⟨h1, h2, opts, rfl, h3⟩
      · rintro ⟨h1, h2, opts2, rfl, h3⟩
        exact ⟨⟨h1, h2⟩, h3⟩
  · intro q o hne
    obtain ⟨t, qt, o0, r, i⟩ := q
    simp only at hne
    simp [questionSchemaAccepts, if_neg hne]
  · intro s hempty
    simp [surveyWithQuestionsAccepts, hempty]

/-- Witness for `question_schema_options_rule`: the rules applied at
concrete inputs — a 2-option `multiple_choice` question is accepted, a
1-option one is rejected by the characterization, `options` is irrelevant
for a `short_answer` question, and an empty survey is rejected. -/
theorem question_schema_options_rule_witness :
    questionSchemaAccepts
      ⟨"Pick?", QuestionType.multiple_choice, some ["Red", "Blue"], false, 0⟩ = true ∧
    questionSchemaAccepts
      ⟨"Pick?", QuestionType.short_answer, some ["Red"], false, 0⟩ =
      questionSchemaAccepts ⟨"Pick?", QuestionType.short_answer, none, false, 0⟩ ∧
    surveyWithQuestionsAccepts ⟨"T", none, "t", SurveyStatus.draft, []⟩ = false :=
  ⟨(question_schema_options_rule.1
      ⟨"Pick?", QuestionType.multiple_choice, some ["Red", "Blue"], false, 0⟩ rfl).mpr
      ⟨by decide, by decide, ["Red", "Blue"], rfl, by decide⟩,
   question_schema_options_rule.2.1
      ⟨"Pick?", QuestionType.short_answer, none, false, 0⟩ (some ["Red"]) (by decide),
   question_schema_options_rule.2.2.1 ⟨"T", none, "t", SurveyStatus.draft, []⟩ rfl⟩

/-! Helper lemmas for `generateSlug`. -/

theorem mem_replaceRuns (p : Char → Bool) (r : Char) :
    ∀ (l : List Char) (b : Bool) (c : Char),
      c ∈ replaceRuns p r l b → c = r ∨ (c ∈ l ∧ p c = false) := by
  intro l
  induction l with
  | nil =>
    intro b c h
    simp [replaceRuns] at h
  | cons a rest ih =>
    intro b c h
    simp only [replaceRuns] at h
    by_cases hp : p a = true
    · rw [if_pos hp] at h
      cases b with
      | true =>
        rcases ih true c h with h1 | ⟨h2, h3⟩
        · exact Or.inl h1
        · exact Or.inr ⟨List.mem_cons_of_mem a h2, h3⟩
      | false =>
        rcases List.mem_cons.mp h with h1 | h2
        · exact Or.inl h1
        · rcases ih true c h2 with h3 | ⟨h4, h5⟩
          · exact Or.inl h3
          · exact Or.inr ⟨List.mem_cons_of_mem a h4, h5⟩
    · rw [if_neg hp] at h
      rcases List.mem_cons.mp h with h1 | h2
      · subst h1
        exact Or.inr ⟨List.mem_cons_self c rest, Bool.not_eq_true _ ▸ hp⟩
      · rcases ih false c h2 with h3 | ⟨h4, h5⟩
        · exact Or.inl h3
        · exact Or.inr ⟨List.mem_cons_of_mem a h4, h5⟩

theorem replaceRuns_chain (p : Char → Bool) (r : Char) :
    ∀ (l : List Char) (b : Bool),
      List.Chain' (fun a c => ¬(p a = true ∧ p c = true)) (replaceRuns p r l b) ∧
      (b = true → ∀ c, (replaceRuns p r l b).head? = some c → p c = false) := by
  intro l
  induction l with
  | nil => intro b; simp [replaceRuns]
  | cons a rest ih =>
    intro b
    simp only [replaceRuns]
    by_cases hp : p a = true
    · rw [if_pos hp]
      cases b with
      | true => simpa using ih true
      | false =>
        rw [if_neg (by decide : ¬(false = true))]
        constructor
        · rw [List.chain'_cons']
          refine ⟨?_, (ih true).1⟩
          intro y hy
          have := (ih true).2 rfl y hy
          simp [this]
        · intro hb
          cases hb
    · rw [if_neg hp]
      constructor
      · rw [List.chain'_cons']
        refine ⟨?_, (ih false).1⟩
        intro y _
        simp [hp]
      · intro _ c hc
        simp only [List.head?_cons, Option.some.injEq] at hc
        subst hc
        exact Bool.not_eq_true _ ▸ hp

theorem dropWhile_eq_self_of_none (p : Char → Bool) (l : List Char)
    (h : ∀ c ∈ l, p c = false) : l.dropWhile p = l := by
  cases l with
  | nil => rfl
  | cons a rest =>
    rw [List.dropWhile_cons, if_neg]
    simp [h a (List.mem_cons_self a rest)]

theorem jsTrim_eq_self (l : List Char) (h : ∀ c ∈ l, isJsWhitespace c = false) :
    jsTrim l = l := by
  unfold jsTrim
  rw [dropWhile_eq_self_of_none _ _ h,
    dropWhile_eq_self_of_none _ _ (fun c hc => h c (List.mem_reverse.mp hc)),
    List.reverse_reverse]

theorem keep_not_ws_is_slugChar (c : Char) (hk : keepSlugChar c = true)
    (hw : isJsWhitespace c = false) : isSlugChar c = true := by
  simp only [keepSlugChar, hw, Bool.or_false, Bool.or_eq_true] at hk
  simp only [isSlugChar, Bool.or_eq_true]
  tauto

/-- C10 counterexample: a title consisting of a single space contains no
letters or digits, yet `generateSlug` returns `"-"` (the whitespace run
becomes a hyphen, and `trim` strips whitespace, not hyphens), which is not
the empty string and is accepted by the slug rule `[a-z0-9-]+`. -/
theorem whitespace_title_slug_not_empty :
    generateSlug " " = "-" ∧ ("-" : String) ≠ "" ∧ slugAccepted "-" = true := by
  refine ⟨by decide, by decide, by decide⟩

/-- C10 amended: `generateSlug` always produces a string over `[a-z0-9-]`
with no two consecutive hyphens; a title none of whose (lowercased)
characters are letters, digits, whitespace or hyphens yields the empty
string, which the slug rule `[a-z0-9-]+` rejects (a title of only
whitespace/hyphen characters instead yields `"-"`, see the
counterexample). -/
theorem generateSlug_shape (title : String) :
    (generateSlug title).data.all isSlugChar = true ∧
    List.Chain' (fun a c => ¬(a = '-' ∧ c = '-')) (generateSlug title).data ∧
    ((title.data.map Char.toLower).all (fun c => !(keepSlugChar c)) = true →
      generateSlug title = "") ∧
    slugAccepted "" = false := by
  have hkept : ∀ c ∈ (title.data.map Char.toLower).filter keepSlugChar,
      keepSlugChar c = true := by
    intro c hc
    exact (List.mem_filter.mp hc).2
  have hdashed : ∀ c ∈ replaceRuns isJsWhitespace '-'
      ((title.data.map Char.toLower).filter keepSlugChar) false,
      isJsWhitespace c = false ∧ (c = '-' ∨ keepSlugChar c = true) := by
    intro c hc
    rcases mem_replaceRuns isJsWhitespace '-' _ false c hc with h1 | ⟨h2, h3⟩
    · subst h1
      exact ⟨by decide, Or.inl rfl⟩
    · exact ⟨h3, Or.inr (hkept c h2)⟩
  have hcollapsed : ∀ c ∈ replaceRuns (fun c => c == '-') '-'
      (replaceRuns isJsWhitespace '-'
        ((title.data.map Char.toLower).filter keepSlugChar) false) false,
      isJsWhitespace c = false ∧ isSlugChar c = true := by
    intro c hc
    rcases mem_replaceRuns (fun c => c == '-') '-' _ false c hc with h1 | ⟨h2, _⟩
    · subst h1
      exact ⟨by decide, by decide⟩
    · obtain ⟨hw, hor⟩ := hdashed c h2
      refine ⟨hw, ?_⟩
      rcases hor with h3 | h4
      · subst h3; decide
      · exact keep_not_ws_is_slugChar c h4 hw
  have hdata : (generateSlug title).data = replaceRuns (fun c => c == '-') '-'
      (replaceRuns isJsWhitespace '-'
        ((title.data.map Char.toLower).filter keepSlugChar) false) false := by
    show (String.mk (jsTrim _)).data = _
    rw [jsTrim_eq_self _ (fun c hc => (hcollapsed c hc).1)]
  refine ⟨?_, ?_, ?_, by decide⟩
  · rw [hdata, List.all_eq_true]
    intro c hc
    exact (hcollapsed c hc).2
  · rw [hdata]
    have hchain := (replaceRuns_chain (fun c => c == '-') '-'
      (replaceRuns isJsWhitespace '-'
        ((title.data.map Char.toLower).filter keepSlugChar) false) false).1
    refine List.Chain'.imp ?_ hchain
    intro a c h
    intro ⟨ha, hc⟩
    exact h ⟨by simp [ha], by simp [hc]⟩
  · intro hnone
    have hfil : (title.data.map Char.toLower).filter keepSlugChar = [] := by
      rw [List.filter_eq_nil_iff]
      intro c hc
      have := List.all_eq_true.mp hnone c hc
      simpa using this
    show String.mk (jsTrim _) = ""
    rw [hfil]
    rfl

/-- Witness for `generateSlug_shape`: a title of only punctuation produces
the empty slug. -/
theorem generateSlug_shape_witness : generateSlug "!!!" = "" :=
  (generateSlug_shape "!!!").2.2.1 (by decide)
